import Mathlib

/-!
Shallow embedding of `src/wykop/wykop_api.py` (class `WykopAPI`): a thin
client for the Wykop v3 REST API.  HTTP transport is modelled by explicit
`HttpRequest` values (what the client would dispatch) and `HttpResponse`
values (what the transport hands back); fallible Python code becomes
`Except ApiError`.  JSON values are a small inductive; Python dictionary
truthiness and subscripting are modelled explicitly.
-/

/-- JSON values as produced by `response.json()` and consumed by the client.
Numbers are modelled as integers; no claim touches floating point. -/
inductive Json where
  | null : Json
  | str : String → Json
  | num : Int → Json
  | bool : Bool → Json
  | arr : List Json → Json
  | obj : List (String × Json) → Json

/-- Python truthiness of a JSON value (`bool(x)`): `None`, `""`, `0`,
`False`, `[]` and an empty dict are falsy, everything else truthy. -/
def Json.truthy : Json → Bool
  | .null => false
  | .str s => !s.isEmpty
  | .num n => n != 0
  | .bool b => b
  | .arr xs => !xs.isEmpty
  | .obj fs => !fs.isEmpty

/-- Python `str.upper()` (on the ASCII range, the only one the source's
method names use), as a structurally recursive character map. -/
def pyUpper (s : String) : String :=
  ⟨s.data.map Char.toUpper⟩

/-- Python `str.startswith(pre)`. -/
def pyStartsWith (s pre : String) : Bool :=
  pre.data.isPrefixOf s.data

/-- Python `str.endswith(suf)`. -/
def pyEndsWith (s suf : String) : Bool :=
  suf.data.isSuffixOf s.data

/-- Python `s[:-1]`: the string without its last character. -/
def pyDropLast (s : String) : String :=
  ⟨s.data.dropLast⟩

/-- Python `str.strip()`: remove leading and trailing whitespace. -/
def pyStrip (s : String) : String :=
  ⟨((s.data.dropWhile Char.isWhitespace).reverse.dropWhile
      Char.isWhitespace).reverse⟩

/-- First-match lookup in an object's field list (Python dict keys are
unique, so first match is the dict lookup). -/
def jlookup : List (String × Json) → String → Option Json
  | [], _ => none
  | (k, v) :: rest, key => if k = key then some v else jlookup rest key

/-- Python `dict.get(k)`: the value when the key is present, `None` otherwise. -/
def pyDictGet (fs : List (String × Json)) (k : String) : Json :=
  match jlookup fs k with
  | some v => v
  | none => Json.null

/-- Errors the client can raise.  `authenticationFailure`,
`authenticationRequired`, `unsupportedMethod` and `httpStatusFailure` are
the spec's taxonomy; `jsonDecodeError`, `keyError`, `typeError` and
`attributeError` are the Python-level failures of `response.json()`,
subscripting, iteration and attribute access. -/
inductive ApiError where
  | authenticationRequired : ApiError
  | authenticationFailure : Nat → String → ApiError
  | unsupportedMethod : ApiError
  | httpStatusFailure : Nat → String → ApiError
  | jsonDecodeError : ApiError
  | keyError : String → ApiError
  | typeError : ApiError
  | attributeError : ApiError

/-- Python subscripting `j[k]`: `KeyError` when the key is missing,
`TypeError` when `j` is not a dict. -/
def pySubscript (j : Json) (k : String) : Except ApiError Json :=
  match j with
  | .obj fs =>
    match jlookup fs k with
    | some v => Except.ok v
    | none => Except.error (ApiError.keyError k)
  | _ => Except.error ApiError.typeError

/-- An HTTP response as seen through httpx: status code, raw text, and the
parsed JSON body (`none` when the text is not valid JSON, in which case
`response.json()` raises). -/
structure HttpResponse where
  status : Nat
  text : String
  body : Option Json

/-- The HTTP request the client dispatches: verb, full URL, headers, query
parameters (GET/DELETE) or JSON body (POST/PUT/PATCH), redirect policy. -/
structure HttpRequest where
  verb : String
  url : String
  headers : List (String × String)
  params : Option (List (String × Json))
  jsonBody : Option Json
  followRedirects : Bool

/-- Client state of `WykopAPI.__init__`: credentials, base URL and the
optional token.  The token is stored as whatever JSON value the auth
response carried (Python performs no runtime check on the annotation). -/
structure WykopAPI where
  app_key : String
  secret : String
  base_url : String
  token : Option Json

/-- Constructor `WykopAPI.__init__`: strips the credentials, stores the
base URL unmodified, leaves the token unset. -/
def WykopAPI.init (app_key secret base_url : String) : WykopAPI :=
  { app_key := pyStrip app_key
  , secret := pyStrip secret
  , base_url := base_url
  , token := none }

/-- Python `not self.token` with `token : Optional[...]`: true when the
token is `None` or a falsy value such as the empty string. -/
def tokenFalsy : Option Json → Bool
  | none => true
  | some j => !j.truthy

/-- Python `str()` of the token as used by the f-string
`f"Bearer {self.token}"`.  Scalar cases follow Python; the container cases
are unreachable on every modelled path (the guard requires a truthy token
and the claims only exercise string tokens), so their Python `repr`
rendering is left as a fixed marker. -/
def Json.pyStr : Json → String
  | .str s => s
  | .null => "None"
  | .bool true => "True"
  | .bool false => "False"
  | .num n => toString n
  | .arr _ => "<container>"
  | .obj _ => "<container>"

/-- Rendered token for the Authorization header. -/
def tokenStr : Option Json → String
  | none => "None"
  | some j => j.pyStr

/-- The request `authenticate()` sends: POST to `{base_url}/auth` with
JSON body `{"data": {"key": app_key, "secret": secret}}`. -/
def WykopAPI.authRequest (api : WykopAPI) : HttpRequest :=
  { verb := "POST"
  , url := api.base_url ++ "/auth"
  , headers :=
      [("Content-Type", "application/json"), ("Accept", "application/json")]
  , params := none
  , jsonBody := some (Json.obj
      [("data", Json.obj
        [("key", Json.str api.app_key), ("secret", Json.str api.secret)])])
  , followRedirects := false }

/-- Processing of the auth response, exactly in source order: first
`response.json()` (which raises on a non-JSON body), then the status
check; on 200 the token at `data.token` is stored and returned, otherwise
the failure carries the status code and the raw text. -/
def WykopAPI.authenticate (api : WykopAPI) (response : HttpResponse) :
    Except ApiError (WykopAPI × Json) :=
  match response.body with
  | none => Except.error ApiError.jsonDecodeError
  | some response_data =>
    if response.status = 200 then
      match pySubscript response_data "data" with
      | Except.error e => Except.error e
      | Except.ok d =>
        match pySubscript d "token" with
        | Except.error e => Except.error e
        | Except.ok t => Except.ok ({ api with token := some t }, t)
    else
      Except.error (ApiError.authenticationFailure response.status response.text)

/-- The fixed verb set, the keys of the source's `http_methods` dict. -/
def httpMethodNames : List String :=
  ["GET", "POST", "PUT", "DELETE", "PATCH"]

/-- Request construction of `make_request`: token guard, endpoint
normalization (add a leading slash when absent, drop one trailing slash
when present), URL and headers, `method.upper()` dispatch; GET/DELETE
carry the query parameters, POST/PUT/PATCH the JSON body; unknown verbs
raise, and an error means no request is dispatched. -/
def WykopAPI.make_request (api : WykopAPI) (endpoint method : String)
    (params : Option (List (String × Json)))
    (data : Option (List (String × Json))) : Except ApiError HttpRequest :=
  if tokenFalsy api.token then
    Except.error ApiError.authenticationRequired
  else
    let endpoint := if pyStartsWith endpoint "/" then endpoint else "/" ++ endpoint
    let endpoint := if pyEndsWith endpoint "/" then pyDropLast endpoint else endpoint
    let url := api.base_url ++ endpoint
    let headers :=
      [("Authorization", "Bearer " ++ tokenStr api.token)
      , ("Content-Type", "application/json")
      , ("Accept", "application/json")]
    let method := pyUpper method
    if method ∈ httpMethodNames then
      if method = "GET" ∨ method = "DELETE" then
        Except.ok
          { verb := method, url := url, headers := headers
          , params := params, jsonBody := none, followRedirects := true }
      else
        Except.ok
          { verb := method, url := url, headers := headers
          , params := none, jsonBody := (data.map Json.obj)
          , followRedirects := true }
    else
      Except.error ApiError.unsupportedMethod

/-- httpx `response.raise_for_status()`: raises for any non-2xx status. -/
def raise_for_status (resp : HttpResponse) : Except ApiError Unit :=
  if 200 ≤ resp.status ∧ resp.status < 300 then Except.ok ()
  else Except.error (ApiError.httpStatusFailure resp.status resp.text)

/-- Full `make_request` round trip given the transport's response: request
construction, status check, then `response.json()`. -/
def WykopAPI.make_request_response (api : WykopAPI) (endpoint method : String)
    (params : Option (List (String × Json)))
    (data : Option (List (String × Json)))
    (resp : HttpResponse) : Except ApiError Json :=
  match api.make_request endpoint method params data with
  | Except.error e => Except.error e
  | Except.ok _ =>
    match raise_for_status resp with
    | Except.error e => Except.error e
    | Except.ok _ =>
      match resp.body with
      | some j => Except.ok j
      | none => Except.error ApiError.jsonDecodeError

/-- Modelled from the spec: the record types `WykopLink` and `WykopEntry`
live in `src/wykop/models.py`, which is absent from the sources; the spec
describes them as the Link and Entry variants of a feed item, so each
variant carries the JSON object it was parsed from.  The variant choice
itself is taken from `get_entries_by_tag` in the source. -/
inductive WykopItem where
  | link : Json → WykopItem
  | entry : Json → WykopItem

/-- One loop step of `get_entries_by_tag`: `entry_data.get("description")`
truthy selects the Link variant, otherwise the Entry variant; a non-dict
element has no `.get` and raises. -/
def parseStreamItem : Json → Except ApiError WykopItem
  | .obj fs =>
    if (pyDictGet fs "description").truthy then
      Except.ok (WykopItem.link (Json.obj fs))
    else
      Except.ok (WykopItem.entry (Json.obj fs))
  | _ => Except.error ApiError.attributeError

/-- The source's accumulation loop over `response["data"]`, raising at the
first failing element. -/
def parseStreamItems : List Json → Except ApiError (List WykopItem)
  | [] => Except.ok []
  | x :: xs =>
    match parseStreamItem x with
    | Except.error e => Except.error e
    | Except.ok item =>
      match parseStreamItems xs with
      | Except.error e => Except.error e
      | Except.ok items => Except.ok (item :: items)

/-- The stream endpoint `f"/tags/{tag_name}/stream"`. -/
def tagStreamEndpoint (tag_name : String) : String :=
  "/tags/" ++ tag_name ++ "/stream"

/-- Query-parameter construction of `get_entries_by_tag`: page, limit,
sort and type always; `year` and `month` only when Python-truthy, i.e.
supplied and nonzero (`if year:` / `if month:`). -/
def buildTagParams (page limit : Int) (sort type : String)
    (year month : Option Int) : List (String × Json) :=
  let params := [("page", Json.num page), ("limit", Json.num limit)
    , ("sort", Json.str sort), ("type", Json.str type)]
  let params :=
    match year with
    | some y => if y != 0 then params ++ [("year", Json.num y)] else params
    | none => params
  match month with
  | some m => if m != 0 then params ++ [("month", Json.num m)] else params
  | none => params

/-- The request side of `get_entries_by_tag`: the `make_request` call it
performs, with the built query parameters and the GET verb. -/
def WykopAPI.get_entries_by_tag_request (api : WykopAPI) (tag_name : String)
    (page limit : Int) (sort type : String)
    (year month : Option Int) : Except ApiError HttpRequest :=
  api.make_request (tagStreamEndpoint tag_name) "GET"
    (some (buildTagParams page limit sort type year month)) none

/-- Full `get_entries_by_tag` given the transport's response: build the
endpoint and parameters, perform the GET, then map `response["data"]` to
Link/Entry items in order.  Iterating a non-list `data` field is modelled
as a type error. -/
def WykopAPI.get_entries_by_tag (api : WykopAPI) (tag_name : String)
    (page limit : Int) (sort type : String) (year month : Option Int)
    (resp : HttpResponse) : Except ApiError (List WykopItem) :=
  match api.make_request_response (tagStreamEndpoint tag_name) "GET"
      (some (buildTagParams page limit sort type year month)) none resp with
  | Except.error e => Except.error e
  | Except.ok response =>
    match pySubscript response "data" with
    | Except.error e => Except.error e
    | Except.ok dataField =>
      match dataField with
      | Json.arr xs => parseStreamItems xs
      | _ => Except.error ApiError.typeError

/-- Claim-side reading of the normalization: ensure a leading slash. -/
def ensureLeadingSlash (e : String) : String :=
  if pyStartsWith e "/" then e else "/" ++ e

/-- Claim-side reading of the normalization: strip one trailing slash. -/
def stripTrailingSlash (e : String) : String :=
  if pyEndsWith e "/" then pyDropLast e else e

/-- C1: for every client whose token field is unset, `make_request` fails
with `authenticationRequired` for any endpoint, method, params and body;
the error result means no `HttpRequest` is produced, so nothing is
dispatched. -/
theorem make_request_requires_token (api : WykopAPI) (endpoint method : String)
    (params data : Option (List (String × Json))) (h : api.token = none) :
    api.make_request endpoint method params data
      = Except.error ApiError.authenticationRequired := by
  simp [WykopAPI.make_request, tokenFalsy, h]

/-- Witness for C1: a freshly constructed client has no token and its
`make_request` fails with `authenticationRequired`. -/
theorem make_request_requires_token_witness :
    (WykopAPI.init "k" "s" "https://wykop.pl/api/v3").token = none ∧
    (WykopAPI.init "k" "s" "https://wykop.pl/api/v3").make_request
        "/tags/popular" "GET" none none
      = Except.error ApiError.authenticationRequired :=
  ⟨rfl, make_request_requires_token _ _ _ _ _ rfl⟩

/-- C2: on a 200 auth response whose JSON body holds the string `t` at
`data.token`, `authenticate` stores exactly `t` in the token field and
returns exactly `t`. -/
theorem authenticate_success (api : WykopAPI) (resp : HttpResponse)
    (rd d : Json) (t : String)
    (hb : resp.body = some rd) (hs : resp.status = 200)
    (hd : pySubscript rd "data" = Except.ok d)
    (ht : pySubscript d "token" = Except.ok (Json.str t)) :
    api.authenticate resp
      = Except.ok ({ api with token := some (Json.str t) }, Json.str t) := by
  simp [WykopAPI.authenticate, hb, hs, hd, ht]

/-- Witness for C2: a concrete 200 response carrying token "tok". -/
theorem authenticate_success_witness :
    (WykopAPI.init "k" "s" "b").authenticate
        { status := 200, text := ""
        , body := some (Json.obj
            [("data", Json.obj [("token", Json.str "tok")])]) }
      = Except.ok
          ({ WykopAPI.init "k" "s" "b" with token := some (Json.str "tok") }
          , Json.str "tok") :=
  authenticate_success _ _ _ _ _ rfl rfl rfl rfl

/-- Counterexample to C3 as stated: a non-200 auth response whose body is
not valid JSON makes `authenticate` fail with the JSON decode error from
`response.json()` (called before the status check), not with an
`authenticationFailure` carrying status and body. -/
theorem authenticate_non200_nonjson_counterexample :
    (WykopAPI.init "k" "s" "b").authenticate
        { status := 500, text := "<html>error</html>", body := none }
      = Except.error ApiError.jsonDecodeError := rfl

/-- C3 amended: for every non-200 auth response whose body is valid JSON,
`authenticate` fails with `authenticationFailure` carrying that response's
status code and raw body text. -/
theorem authenticate_failure (api : WykopAPI) (resp : HttpResponse) (rd : Json)
    (hb : resp.body = some rd) (hs : resp.status ≠ 200) :
    api.authenticate resp
      = Except.error (ApiError.authenticationFailure resp.status resp.text) := by
  simp [WykopAPI.authenticate, hb, hs]

/-- Witness for C3 amended: a concrete 403 response with a JSON body. -/
theorem authenticate_failure_witness :
    (403 : Nat) ≠ 200 ∧
    (WykopAPI.init "k" "s" "b").authenticate
        { status := 403, text := "forbidden", body := some (Json.obj []) }
      = Except.error (ApiError.authenticationFailure 403 "forbidden") :=
  ⟨by decide, authenticate_failure _ _ _ rfl (by decide)⟩

/-- C10: when the stored token is the empty string (a falsy value, as after
an auth response carrying an empty token), `make_request` fails with
`authenticationRequired` exactly as if no authentication had occurred. -/
theorem make_request_empty_token (api : WykopAPI) (endpoint method : String)
    (params data : Option (List (String × Json)))
    (h : api.token = some (Json.str "")) :
    api.make_request endpoint method params data
      = Except.error ApiError.authenticationRequired := by
  have he : tokenFalsy (some (Json.str "")) = true := rfl
  simp [WykopAPI.make_request, h, he]

/-- Witness for C10: a client holding the empty-string token. -/
theorem make_request_empty_token_witness :
    ({ WykopAPI.init "k" "s" "b" with token := some (Json.str "") }).make_request
        "/tags/popular" "GET" none none
      = Except.error ApiError.authenticationRequired :=
  make_request_empty_token _ _ _ _ _ rfl

/-- Helper: with a truthy token, a GET `make_request` succeeds, the URL is
the base URL followed by the normalized endpoint, and the query parameters
are passed through. -/
theorem make_request_get_ok (api : WykopAPI) (e : String)
    (p : Option (List (String × Json)))
    (h : tokenFalsy api.token = false) :
    api.make_request e "GET" p none
      = Except.ok
          { verb := "GET"
          , url := api.base_url ++ stripTrailingSlash (ensureLeadingSlash e)
          , headers :=
              [("Authorization", "Bearer " ++ tokenStr api.token)
              , ("Content-Type", "application/json")
              , ("Accept", "application/json")]
          , params := p, jsonBody := none, followRedirects := true } := by
  have hup : pyUpper "GET" = "GET" := rfl
  simp [WykopAPI.make_request, h, hup, ensureLeadingSlash, stripTrailingSlash,
    httpMethodNames]

/-- C4: `make_request` normalizes every endpoint by ensuring a leading
slash and stripping one trailing slash before appending to the base URL;
in particular "tags/popular" and "/tags/popular/" yield the same request. -/
theorem make_request_url_normalization (api : WykopAPI) (e : String)
    (h : tokenFalsy api.token = false) :
    (api.make_request e "GET" none none).map HttpRequest.url
      = Except.ok (api.base_url ++ stripTrailingSlash (ensureLeadingSlash e))
  ∧ api.make_request "tags/popular" "GET" none none
      = api.make_request "/tags/popular/" "GET" none none := by
  constructor
  · rw [make_request_get_ok api e none h]; rfl
  · have hnorm : stripTrailingSlash (ensureLeadingSlash "tags/popular")
        = stripTrailingSlash (ensureLeadingSlash "/tags/popular/") := by decide
    rw [make_request_get_ok api "tags/popular" none h,
      make_request_get_ok api "/tags/popular/" none h, hnorm]

/-- Concrete authenticated client shared by the witnesses below. -/
def apiTok : WykopAPI :=
  { WykopAPI.init "k" "s" "https://wykop.pl/api/v3" with
    token := some (Json.str "tok") }

/-- Witness for C4: at a client holding token "tok" and endpoint
"tags/popular". -/
theorem make_request_url_normalization_witness :
    tokenFalsy apiTok.token = false ∧
    ((apiTok.make_request "tags/popular" "GET" none none).map HttpRequest.url
      = Except.ok
          (apiTok.base_url ++ stripTrailingSlash (ensureLeadingSlash "tags/popular"))
    ∧ apiTok.make_request "tags/popular" "GET" none none
        = apiTok.make_request "/tags/popular/" "GET" none none) :=
  ⟨rfl, make_request_url_normalization apiTok "tags/popular" rfl⟩

/-- Counterexample to C5 as stated: the method string "get" is outside the
fixed set {GET, POST, PUT, DELETE, PATCH}, yet `make_request` does not
fail — it uppercases the method and dispatches a GET request. -/
theorem make_request_lowercase_counterexample :
    apiTok.make_request "/x" "get" none none
      = Except.ok
          { verb := "GET", url := "https://wykop.pl/api/v3/x"
          , headers :=
              [("Authorization", "Bearer tok")
              , ("Content-Type", "application/json")
              , ("Accept", "application/json")]
          , params := none, jsonBody := none, followRedirects := true } := rfl

/-- C5 amended: for every authenticated client and every method string
whose uppercase form is outside the fixed set (such as "TRACE"),
`make_request` fails with `unsupportedMethod`; the error result means no
request is produced, so no network call is made. -/
theorem make_request_unsupported_method (api : WykopAPI) (e m : String)
    (params data : Option (List (String × Json)))
    (htok : tokenFalsy api.token = false)
    (hm : pyUpper m ∉ httpMethodNames) :
    api.make_request e m params data
      = Except.error ApiError.unsupportedMethod := by
  simp [WykopAPI.make_request, htok, hm]

/-- Witness for C5 amended: method "TRACE" at an authenticated client. -/
theorem make_request_unsupported_method_witness :
    pyUpper "TRACE" ∉ httpMethodNames ∧
    apiTok.make_request "/x" "TRACE" none none
      = Except.error ApiError.unsupportedMethod :=
  ⟨by decide, make_request_unsupported_method apiTok "/x" "TRACE" none none
    rfl (by decide)⟩

/-- C8: `make_request` accepts method names case-insensitively — whenever
the uppercase form of the method string is in the fixed set, the request
is dispatched with that uppercase verb rather than failing. -/
theorem make_request_method_case_insensitive (api : WykopAPI) (e m : String)
    (params data : Option (List (String × Json)))
    (htok : tokenFalsy api.token = false)
    (hm : pyUpper m ∈ httpMethodNames) :
    (api.make_request e m params data).map HttpRequest.verb
      = Except.ok (pyUpper m) := by
  by_cases hgd : pyUpper m = "GET" ∨ pyUpper m = "DELETE"
  · simp [WykopAPI.make_request, htok, hm, hgd, Except.map]
  · simp [WykopAPI.make_request, htok, hm, hgd, Except.map]

/-- Witness for C8: method "get" dispatches with verb "GET". -/
theorem make_request_method_case_insensitive_witness :
    pyUpper "get" ∈ httpMethodNames ∧
    (apiTok.make_request "/x" "get" none none).map HttpRequest.verb
      = Except.ok "GET" :=
  ⟨by decide, make_request_method_case_insensitive apiTok "/x" "get" none none
    rfl (by decide)⟩

/-- C9: the constructor strips leading and trailing whitespace from the
supplied app_key and secret before storing them, stores the base URL
unmodified and the token unset; the credentials `authenticate()` sends in
the auth request body are the stripped values. -/
theorem init_strips_credentials (k s b : String) :
    (WykopAPI.init k s b).app_key = pyStrip k
  ∧ (WykopAPI.init k s b).secret = pyStrip s
  ∧ (WykopAPI.init k s b).base_url = b
  ∧ (WykopAPI.init k s b).token = none
  ∧ (WykopAPI.init k s b).authRequest.jsonBody
      = some (Json.obj
          [("data", Json.obj
            [("key", Json.str (pyStrip k))
            , ("secret", Json.str (pyStrip s))])]) :=
  ⟨rfl, rfl, rfl, rfl, rfl⟩

/-- Helper: the parse loop of `get_entries_by_tag` on a list of objects
never fails and maps each object in order to the Link variant when its
description is truthy and to the Entry variant otherwise. -/
theorem parseStreamItems_objs (objs : List (List (String × Json))) :
    parseStreamItems (objs.map Json.obj)
      = Except.ok (objs.map fun fs =>
          if (pyDictGet fs "description").truthy then
            WykopItem.link (Json.obj fs)
          else
            WykopItem.entry (Json.obj fs)) := by
  induction objs with
  | nil => rfl
  | cons fs rest ih =>
    cases h : (pyDictGet fs "description").truthy <;>
      simp [parseStreamItems, parseStreamItem, h, ih]

/-- C6 amended: on a 200 stream response whose data field is a list of
JSON objects, `get_entries_by_tag` returns one item per object in the same
order, parsing an object as the Link variant exactly when its description
field is present with a truthy value (non-null, non-empty) and as the
Entry variant otherwise. -/
theorem get_entries_by_tag_parses (api : WykopAPI) (tag : String)
    (page limit : Int) (sort type : String) (year month : Option Int)
    (resp : HttpResponse) (rd : Json) (objs : List (List (String × Json)))
    (htok : tokenFalsy api.token = false)
    (hs : resp.status = 200)
    (hb : resp.body = some rd)
    (hd : pySubscript rd "data" = Except.ok (Json.arr (objs.map Json.obj))) :
    api.get_entries_by_tag tag page limit sort type year month resp
      = Except.ok (objs.map fun fs =>
          if (pyDictGet fs "description").truthy then
            WykopItem.link (Json.obj fs)
          else
            WykopItem.entry (Json.obj fs)) := by
  have hraise : raise_for_status resp = Except.ok () := by
    simp [raise_for_status, hs]
  rw [WykopAPI.get_entries_by_tag, WykopAPI.make_request_response,
    make_request_get_ok api _ _ htok]
  simp [hraise, hb, hd, parseStreamItems_objs]

/-- Witness for C6 amended: the spec's own example payload, yielding an
Entry then a Link in response order. -/
theorem get_entries_by_tag_parses_witness :
    tokenFalsy apiTok.token = false ∧
    apiTok.get_entries_by_tag "hot" 1 25 "best" "all" none none
        { status := 200, text := ""
        , body := some (Json.obj [("data", Json.arr
            [ Json.obj [("id", Json.num 1), ("body", Json.str "hi")]
            , Json.obj [("id", Json.num 2), ("description", Json.str "d")
              , ("title", Json.str "t")]])]) }
      = Except.ok
          [ WykopItem.entry (Json.obj [("id", Json.num 1), ("body", Json.str "hi")])
          , WykopItem.link (Json.obj [("id", Json.num 2)
              , ("description", Json.str "d"), ("title", Json.str "t")])] :=
  ⟨rfl, get_entries_by_tag_parses apiTok "hot" 1 25 "best" "all" none none _ _
    [ [("id", Json.num 1), ("body", Json.str "hi")]
    , [("id", Json.num 2), ("description", Json.str "d"), ("title", Json.str "t")]]
    rfl rfl rfl rfl⟩

/-- Counterexample to C6 as stated: an object whose description field is
present but empty is parsed as an Entry, not a Link — the source tests the
field's truthiness, not its presence. -/
theorem parse_present_empty_description_counterexample :
    apiTok.get_entries_by_tag "hot" 1 25 "best" "all" none none
        { status := 200, text := ""
        , body := some (Json.obj [("data", Json.arr
            [Json.obj [("id", Json.num 2), ("description", Json.str "")
              , ("title", Json.str "t")]])]) }
      = Except.ok
          [WykopItem.entry (Json.obj
            [("id", Json.num 2), ("description", Json.str "")
            , ("title", Json.str "t")])] := rfl

/-- Counterexample to C7 as stated: with year supplied as 0 (and no
month), the outgoing query of `get_entries_by_tag` omits "year" — a
supplied falsy value is silently dropped by `if year:`. -/
theorem year_zero_omitted_counterexample :
    apiTok.get_entries_by_tag_request "hot" 1 25 "best" "all" (some 0) none
      = Except.ok
          { verb := "GET", url := "https://wykop.pl/api/v3/tags/hot/stream"
          , headers :=
              [("Authorization", "Bearer tok")
              , ("Content-Type", "application/json")
              , ("Accept", "application/json")]
          , params := some
              [("page", Json.num 1), ("limit", Json.num 25)
              , ("sort", Json.str "best"), ("type", Json.str "all")]
          , jsonBody := none, followRedirects := true } := rfl

/-- C7 amended: the outgoing query of `get_entries_by_tag` always contains
page, limit, sort and type; it contains year (resp. month) with exactly
the supplied integer value when that argument is supplied and nonzero, and
omits it when the argument is not supplied or is supplied as 0. -/
theorem get_entries_params_spec (api : WykopAPI) (tag : String)
    (page limit : Int) (sort type : String) (year month : Option Int)
    (htok : tokenFalsy api.token = false) :
    (api.get_entries_by_tag_request tag page limit sort type year month).map
        HttpRequest.params
      = Except.ok (some (buildTagParams page limit sort type year month))
  ∧ jlookup (buildTagParams page limit sort type year month) "page"
      = some (Json.num page)
  ∧ jlookup (buildTagParams page limit sort type year month) "limit"
      = some (Json.num limit)
  ∧ jlookup (buildTagParams page limit sort type year month) "sort"
      = some (Json.str sort)
  ∧ jlookup (buildTagParams page limit sort type year month) "type"
      = some (Json.str type)
  ∧ jlookup (buildTagParams page limit sort type year month) "year"
      = (match year with
        | some y => if y != 0 then some (Json.num y) else none
        | none => none)
  ∧ jlookup (buildTagParams page limit sort type year month) "month"
      = (match month with
        | some m => if m != 0 then some (Json.num m) else none
        | none => none) := by
  refine ⟨?_, ?_⟩
  · rw [WykopAPI.get_entries_by_tag_request, make_request_get_ok api _ _ htok]
    rfl
  · rcases year with _ | y
    · rcases month with _ | m
      · simp [buildTagParams, jlookup]
      · by_cases hm : m = 0 <;> simp [buildTagParams, jlookup, hm]
    · rcases month with _ | m
      · by_cases hy : y = 0 <;> simp [buildTagParams, jlookup, hy]
      · by_cases hy : y = 0 <;> by_cases hm : m = 0 <;>
          simp [buildTagParams, jlookup, hy, hm]

/-- Witness for C7 amended: year supplied as 2023, month not supplied. -/
theorem get_entries_params_spec_witness :
    tokenFalsy apiTok.token = false ∧
    ((apiTok.get_entries_by_tag_request "hot" 2 30 "all" "entry"
          (some 2023) none).map HttpRequest.params
      = Except.ok (some (buildTagParams 2 30 "all" "entry" (some 2023) none))
    ∧ jlookup (buildTagParams 2 30 "all" "entry" (some 2023) none) "page"
        = some (Json.num 2)
    ∧ jlookup (buildTagParams 2 30 "all" "entry" (some 2023) none) "limit"
        = some (Json.num 30)
    ∧ jlookup (buildTagParams 2 30 "all" "entry" (some 2023) none) "sort"
        = some (Json.str "all")
    ∧ jlookup (buildTagParams 2 30 "all" "entry" (some 2023) none) "type"
        = some (Json.str "entry")
    ∧ jlookup (buildTagParams 2 30 "all" "entry" (some 2023) none) "year"
        = some (Json.num 2023)
    ∧ jlookup (buildTagParams 2 30 "all" "entry" (some 2023) none) "month"
        = none) :=
  ⟨rfl, get_entries_params_spec apiTok "hot" 2 30 "all" "entry"
    (some 2023) none rfl⟩
